import Mathlib

/-!
Shallow embedding of the link-layer reconciliation helper
(`networkingcommon.MachineLinkLayerOp`, package excerpt in the repository)
together with the external collaborators it uses.

Conventions of the embedding:
* Go interfaces (`LinkLayerDevice`, `LinkLayerAddress`, `LinkLayerMachine`)
  become structures holding exactly the data the excerpt reads through them;
  the machine's two accessors are modelled as the point-in-time
  `(collection, error)` pair a call to them produces.
* Methods with a pointer receiver become functions `Op → args → result × Op`,
  the second component being the receiver's state when the method returns, so
  that absence of mutation is a provable statement.  Methods returning
  nothing become `Op → args → Op`.
* Go errors are `Option String` (`none` = nil error).
-/

/-- A layer-2 device record: the fields the excerpt reads through the
`LinkLayerDevice` interface. -/
structure LinkLayerDevice where
  id : String
  macAddress : String
  name : String
  providerId : String
  parentId : String
deriving DecidableEq

/-- A layer-3 address record assigned to a device: the fields the excerpt
reads through the `LinkLayerAddress` interface. -/
structure LinkLayerAddress where
  deviceName : String
  value : String
  origin : String
deriving DecidableEq

/-- One address observation carried by an incoming interface
(the per-address payload of `network.InterfaceInfo`). -/
structure IncomingAddress where
  value : String
  origin : String
deriving DecidableEq

/-- `network.InterfaceInfo`: one incoming observed interface, with the fields
the reconciliation code uses. -/
structure InterfaceInfo where
  macAddress : String
  interfaceName : String
  addresses : List IncomingAddress
deriving DecidableEq

/-- `LinkLayerMachine`: the machine handle.  Each accessor result is the
`(collection, error)` pair returned by the corresponding Go call. -/
structure LinkLayerMachine where
  id : String
  allLinkLayerDevices : List LinkLayerDevice × Option String
  allAddresses : List LinkLayerAddress × Option String

/-- The external `set.Strings` collection (juju/collections): a set of
strings backed by `map[string]bool`, so membership is exact string
equality and insertion is idempotent and order-insensitive. -/
structure SetStrings where
  values : Finset String
deriving DecidableEq

/-- `set.NewStrings()` with no arguments: the empty set. -/
def SetStrings.NewStrings : SetStrings := ⟨∅⟩

/-- `set.Strings.Add`: map insertion of the exact string. -/
def SetStrings.Add (s : SetStrings) (v : String) : SetStrings := ⟨insert v s.values⟩

/-- `set.Strings.Contains`: exact-string map lookup. -/
def SetStrings.Contains (s : SetStrings) (v : String) : Bool := decide (v ∈ s.values)

/-- `errors.Trace` (juju/errors): annotates a non-nil error with the call
site and returns nil unchanged; at this embedding's level of detail it
preserves the error exactly. -/
def errorsTrace (err : Option String) : Option String := err

/-- ASCII lower-casing of one character, used to express case-insensitive
hardware-address comparison. -/
def asciiToLower (c : Char) : Char :=
  if 65 ≤ c.toNat ∧ c.toNat ≤ 90 then Char.ofNat (c.toNat + 32) else c

/-- Modelled from the spec: the hardware-address comparison used by
`network.InterfaceInfos.GetByHardwareAddress`, which is code of this
repository outside the excerpt.  Section 4.2 specifies the matcher as
scanning for an entry "whose hardware address equals the device's hardware
address (case-insensitive, since hardware addresses are conventionally
colon-hex but comparison must be normalization-tolerant)". -/
def hwAddrEq (a b : String) : Bool :=
  a.data.map asciiToLower == b.data.map asciiToLower

/-- Modelled from the spec: `network.InterfaceInfos.GetByHardwareAddress`
(code of this repository outside the excerpt) returns the sub-collection of
incoming interfaces sharing the input hardware address, in observation
order. -/
def GetByHardwareAddress (s : List InterfaceInfo) (hwAddr : String) : List InterfaceInfo :=
  s.filter (fun dev => hwAddrEq dev.macAddress hwAddr)

/-- Modelled from the spec: `networkAddressStateArgsForHWAddr` (same package,
outside the excerpt).  Section 4.2: "returns all address observations
attached to any incoming interface sharing the device's hardware address". -/
def networkAddressStateArgsForHWAddr (devs : List InterfaceInfo) (hwAddr : String) :
    List IncomingAddress :=
  ((GetByHardwareAddress devs hwAddr).map (fun dev => dev.addresses)).flatten

/-- `MachineLinkLayerOp`: the per-invocation reconciliation state. -/
structure MachineLinkLayerOp where
  machine : LinkLayerMachine
  incoming : List InterfaceInfo
  processedDevs : SetStrings
  processedAddrs : SetStrings
  existingDevs : List LinkLayerDevice
  existingAddrs : List LinkLayerAddress

/-- `NewMachineLinkLayerOp`: fresh per-invocation state; the two processed
sets start empty and the snapshot slices start as Go zero values (empty). -/
def NewMachineLinkLayerOp (machine : LinkLayerMachine) (incoming : List InterfaceInfo) :
    MachineLinkLayerOp :=
  { machine := machine
    incoming := incoming
    processedDevs := SetStrings.NewStrings
    processedAddrs := SetStrings.NewStrings
    existingDevs := []
    existingAddrs := [] }

/-- `Incoming`: property accessor for the incoming collection. -/
def MachineLinkLayerOp.Incoming (o : MachineLinkLayerOp) :
    List InterfaceInfo × MachineLinkLayerOp :=
  (o.incoming, o)

/-- `ExistingDevices`: property accessor for the device snapshot. -/
def MachineLinkLayerOp.ExistingDevices (o : MachineLinkLayerOp) :
    List LinkLayerDevice × MachineLinkLayerOp :=
  (o.existingDevs, o)

/-- `ExistingAddresses`: property accessor for the address snapshot. -/
def MachineLinkLayerOp.ExistingAddresses (o : MachineLinkLayerOp) :
    List LinkLayerAddress × MachineLinkLayerOp :=
  (o.existingAddrs, o)

/-- `PopulateExistingDevices`: assigns the accessor's collection to the
snapshot field and returns the traced accessor error. -/
def MachineLinkLayerOp.PopulateExistingDevices (o : MachineLinkLayerOp) :
    Option String × MachineLinkLayerOp :=
  (errorsTrace o.machine.allLinkLayerDevices.2,
    { o with existingDevs := o.machine.allLinkLayerDevices.1 })

/-- `PopulateExistingAddresses`: assigns the accessor's collection to the
snapshot field and returns the traced accessor error. -/
def MachineLinkLayerOp.PopulateExistingAddresses (o : MachineLinkLayerOp) :
    Option String × MachineLinkLayerOp :=
  (errorsTrace o.machine.allAddresses.2,
    { o with existingAddrs := o.machine.allAddresses.1 })

/-- `MatchingIncoming`: first incoming interface sharing the device's
hardware address, nil (none) when the filtered collection is empty. -/
def MachineLinkLayerOp.MatchingIncoming (o : MachineLinkLayerOp) (dev : LinkLayerDevice) :
    Option InterfaceInfo × MachineLinkLayerOp :=
  ((GetByHardwareAddress o.incoming dev.macAddress).head?, o)

/-- `MatchingIncomingAddrs`: state args for all addresses on incoming
interfaces matching the device's hardware address. -/
def MachineLinkLayerOp.MatchingIncomingAddrs (o : MachineLinkLayerOp) (dev : LinkLayerDevice) :
    List IncomingAddress × MachineLinkLayerOp :=
  (networkAddressStateArgsForHWAddr o.Incoming.1 dev.macAddress, o)

/-- `DeviceAddresses`: the snapshot addresses whose device name equals the
input device's name. -/
def MachineLinkLayerOp.DeviceAddresses (o : MachineLinkLayerOp) (dev : LinkLayerDevice) :
    List LinkLayerAddress × MachineLinkLayerOp :=
  (o.existingAddrs.filter (fun addr => addr.deviceName == dev.name), o)

/-- `MarkDevProcessed`: adds the device's MAC address to the processed-device
set. -/
def MachineLinkLayerOp.MarkDevProcessed (o : MachineLinkLayerOp) (dev : LinkLayerDevice) :
    MachineLinkLayerOp :=
  { o with processedDevs := o.processedDevs.Add dev.macAddress }

/-- `IsDevProcessed`: whether the incoming interface's MAC address is in the
processed-device set. -/
def MachineLinkLayerOp.IsDevProcessed (o : MachineLinkLayerOp) (dev : InterfaceInfo) :
    Bool × MachineLinkLayerOp :=
  (o.processedDevs.Contains dev.macAddress, o)

/-- `MarkAddrProcessed`: adds the IP address value to the processed-address
set. -/
def MachineLinkLayerOp.MarkAddrProcessed (o : MachineLinkLayerOp) (ipAddress : String) :
    MachineLinkLayerOp :=
  { o with processedAddrs := o.processedAddrs.Add ipAddress }

/-- `Done`: returns the operation outcome it is given. -/
def MachineLinkLayerOp.Done (o : MachineLinkLayerOp) (err : Option String) :
    Option String × MachineLinkLayerOp :=
  (err, o)

/-! Concrete sample data used by witnesses and counterexamples. -/

/-- Sample incoming interface. -/
def itfSample : InterfaceInfo :=
  { macAddress := "aa:bb:cc:dd:ee:ff"
    interfaceName := "eth0"
    addresses := [{ value := "10.0.0.5", origin := "machine" }] }

/-- Sample machine whose accessors succeed with empty collections. -/
def machineSample : LinkLayerMachine :=
  { id := "0", allLinkLayerDevices := ([], none), allAddresses := ([], none) }

/-- Sample known device whose MAC differs from `itfSample` only in case. -/
def devSample : LinkLayerDevice :=
  { id := "d0", macAddress := "AA:BB:CC:DD:EE:FF", name := "eth0"
    providerId := "", parentId := "" }

/-- Sample known device matching no incoming interface. -/
def devOther : LinkLayerDevice :=
  { id := "d1", macAddress := "11:22:33:44:55:66", name := "eth1"
    providerId := "", parentId := "" }

/-- Sample fresh operation over `machineSample` and one incoming interface. -/
def opSample : MachineLinkLayerOp := NewMachineLinkLayerOp machineSample [itfSample]

/-- Sample snapshot address owned by device name eth0. -/
def addrSample : LinkLayerAddress :=
  { deviceName := "eth0", value := "10.0.0.5", origin := "machine" }

/-- Sample snapshot address owned by device name eth1. -/
def addrOther : LinkLayerAddress :=
  { deviceName := "eth1", value := "10.0.0.7", origin := "machine" }

/-- Sample operation with a populated address snapshot. -/
def opWithAddrs : MachineLinkLayerOp :=
  { opSample with existingAddrs := [addrSample, addrOther] }

/-! Helper lemmas shared by the claim theorems. -/

/-- The head of a filtered list is the first element satisfying the
predicate. -/
theorem filter_head_eq_find {α : Type} (p : α → Bool) (l : List α) :
    (l.filter p).head? = l.find? p := by
  induction l with
  | nil => rfl
  | cons a t ih =>
    by_cases h : p a
    · simp [List.filter_cons, h]
    · simp [List.filter_cons, h, ih]

/-! Claim theorems. -/

/-- C1: `MatchingIncoming` matches a known device to at most one incoming
interface, namely the first interface in observation order whose hardware
address matches the device's MAC address, and returns none when no incoming
interface shares the device's hardware address. -/
theorem MatchingIncoming_first_match (o : MachineLinkLayerOp) (dev : LinkLayerDevice) :
    (o.MatchingIncoming dev).1
        = o.incoming.find? (fun itf => hwAddrEq itf.macAddress dev.macAddress) ∧
    ((∀ itf ∈ o.incoming, hwAddrEq itf.macAddress dev.macAddress = false) →
      (o.MatchingIncoming dev).1 = none) := by
  refine ⟨?_, ?_⟩
  · simp [MachineLinkLayerOp.MatchingIncoming, GetByHardwareAddress, filter_head_eq_find]
  · intro h
    have hnil : o.incoming.filter (fun itf => hwAddrEq itf.macAddress dev.macAddress) = [] := by
      rw [List.filter_eq_nil_iff]
      intro a ha
      simp [h a ha]
    simp [MachineLinkLayerOp.MatchingIncoming, GetByHardwareAddress, hnil]

/-- C1 witness: on a concrete operation whose single incoming interface does
not share `devOther`'s hardware address, `MatchingIncoming` returns none. -/
theorem MatchingIncoming_first_match_witness :
    (opSample.MatchingIncoming devOther).1 = none :=
  (MatchingIncoming_first_match opSample devOther).2 (by decide)

/-- C2 counterexample: the device's and interface's hardware addresses differ
only in letter case; `MatchingIncoming` matches them, yet after
`MarkDevProcessed` on the device, `IsDevProcessed` is false for the
interface, because the processed set stores the exact MAC string. -/
theorem IsDevProcessed_case_mismatch :
    (opSample.MatchingIncoming devSample).1 = some itfSample ∧
    ((opSample.MarkDevProcessed devSample).IsDevProcessed itfSample).1 = false :=
  ⟨by decide, by decide⟩

/-- C2 (amended): matching is case-insensitive: an incoming interface whose
hardware address matches the device's up to letter case still matches.  But
the processed-set tracker is keyed by the exact hardware-address string:
after `MarkDevProcessed` on the device, `IsDevProcessed` is true for an
interface exactly when its MAC string equals the device's MAC string
exactly, or it was already in the processed set. -/
theorem Matching_caseInsensitive_processed_exact
    (o : MachineLinkLayerOp) (dev : LinkLayerDevice) (itf : InterfaceInfo)
    (hmatch : hwAddrEq itf.macAddress dev.macAddress = true)
    (hmem : itf ∈ o.incoming) :
    ((o.MatchingIncoming dev).1.isSome = true) ∧
    (((o.MarkDevProcessed dev).IsDevProcessed itf).1 = true ↔
      (itf.macAddress = dev.macAddress ∨ itf.macAddress ∈ o.processedDevs.values)) := by
  constructor
  · have hmemf : itf ∈ GetByHardwareAddress o.incoming dev.macAddress := by
      simp [GetByHardwareAddress, List.mem_filter, hmem, hmatch]
    obtain ⟨x, xs, hx⟩ := List.exists_cons_of_ne_nil (List.ne_nil_of_mem hmemf)
    simp [MachineLinkLayerOp.MatchingIncoming, hx]
  · simp [MachineLinkLayerOp.IsDevProcessed, MachineLinkLayerOp.MarkDevProcessed,
      SetStrings.Contains, SetStrings.Add, Finset.mem_insert]

/-- C2 amended witness: concrete instantiation at `opSample`, `devSample` and
`itfSample`, whose hardware addresses differ only in case. -/
theorem Matching_caseInsensitive_processed_exact_witness :
    ((opSample.MatchingIncoming devSample).1.isSome = true) ∧
    (((opSample.MarkDevProcessed devSample).IsDevProcessed itfSample).1 = true ↔
      (itfSample.macAddress = devSample.macAddress ∨
        itfSample.macAddress ∈ opSample.processedDevs.values)) :=
  Matching_caseInsensitive_processed_exact opSample devSample itfSample (by decide) (by decide)

/-- C3: `MatchingIncomingAddrs` returns the address observations of every
incoming interface sharing the device's hardware address, aggregated across
multiple matching incoming entries, not only those of the first matching
interface. -/
theorem MatchingIncomingAddrs_aggregates (o : MachineLinkLayerOp) (dev : LinkLayerDevice)
    (a : IncomingAddress) :
    a ∈ (o.MatchingIncomingAddrs dev).1 ↔
      ∃ itf, itf ∈ o.incoming ∧ hwAddrEq itf.macAddress dev.macAddress = true ∧
        a ∈ itf.addresses := by
  simp only [MachineLinkLayerOp.MatchingIncomingAddrs, MachineLinkLayerOp.Incoming,
    networkAddressStateArgsForHWAddr, GetByHardwareAddress, List.mem_flatten, List.mem_map,
    List.mem_filter]
  constructor
  · rintro ⟨l, ⟨itf, ⟨hmem, hmatch⟩, rfl⟩, hal⟩
    exact ⟨itf, hmem, hmatch, hal⟩
  · rintro ⟨itf, hmem, hmatch, hal⟩
    exact ⟨itf.addresses, ⟨itf, ⟨hmem, hmatch⟩, rfl⟩, hal⟩

/-- Folding `MarkDevProcessed` over a list of devices: one pass's sequence of
device marks. -/
def markDevsAll : MachineLinkLayerOp → List LinkLayerDevice → MachineLinkLayerOp
  | o, [] => o
  | o, d :: t => markDevsAll (o.MarkDevProcessed d) t

/-- After any sequence of device marks, an interface is processed exactly
when it was already processed or some marked device has its exact MAC. -/
theorem isDevProcessed_markDevsAll (devs : List LinkLayerDevice) (o : MachineLinkLayerOp)
    (itf : InterfaceInfo) :
    ((markDevsAll o devs).IsDevProcessed itf).1 = true ↔
      ((o.IsDevProcessed itf).1 = true ∨ ∃ d, d ∈ devs ∧ d.macAddress = itf.macAddress) := by
  induction devs generalizing o with
  | nil => simp [markDevsAll]
  | cons d t ih =>
    rw [markDevsAll, ih]
    simp only [MachineLinkLayerOp.IsDevProcessed, MachineLinkLayerOp.MarkDevProcessed,
      SetStrings.Contains, SetStrings.Add, Finset.mem_insert, decide_eq_true_eq,
      List.mem_cons]
    constructor
    · rintro (⟨h | h⟩ | ⟨d2, hd2, hmac⟩)
      · exact Or.inr ⟨d, Or.inl rfl, h.symm⟩
      · exact Or.inl h
      · exact Or.inr ⟨d2, Or.inr hd2, hmac⟩
    · rintro (h | ⟨d2, (rfl | hd2), hmac⟩)
      · exact Or.inl (Or.inr h)
      · exact Or.inl (Or.inl hmac.symm)
      · exact Or.inr ⟨d2, hd2, hmac⟩

/-- C4: the processed-set tracker keys devices by hardware address and
addresses by IP value: over any sequence of device marks on a freshly
constructed operation, `IsDevProcessed` is true exactly when some marked
device has the interface's hardware address; `MarkAddrProcessed` records
exactly the given IP value and leaves the device set unchanged. -/
theorem ProcessedTracker_keys (machine : LinkLayerMachine) (incoming : List InterfaceInfo)
    (devs : List LinkLayerDevice) (itf : InterfaceInfo) (o : MachineLinkLayerOp) (ip : String) :
    (((markDevsAll (NewMachineLinkLayerOp machine incoming) devs).IsDevProcessed itf).1 = true ↔
      ∃ d, d ∈ devs ∧ d.macAddress = itf.macAddress) ∧
    ((o.MarkAddrProcessed ip).processedAddrs.values = insert ip o.processedAddrs.values) ∧
    ((o.MarkAddrProcessed ip).processedDevs = o.processedDevs) := by
  refine ⟨?_, rfl, rfl⟩
  rw [isDevProcessed_markDevsAll]
  simp [NewMachineLinkLayerOp, MachineLinkLayerOp.IsDevProcessed, SetStrings.Contains,
    SetStrings.NewStrings]

/-- C5: `PopulateExistingDevices` and `PopulateExistingAddresses` return an
error exactly when the machine accessor fails (the traced accessor error),
and on success the corresponding snapshot accessor returns exactly the
collection the accessor produced, an empty collection included. -/
theorem Populate_mirrors_accessor (o : MachineLinkLayerOp) :
    (o.PopulateExistingDevices.1 = o.machine.allLinkLayerDevices.2) ∧
    (o.machine.allLinkLayerDevices.2 = none →
      o.PopulateExistingDevices.2.ExistingDevices.1 = o.machine.allLinkLayerDevices.1) ∧
    (o.PopulateExistingAddresses.1 = o.machine.allAddresses.2) ∧
    (o.machine.allAddresses.2 = none →
      o.PopulateExistingAddresses.2.ExistingAddresses.1 = o.machine.allAddresses.1) :=
  ⟨rfl, fun _ => rfl, rfl, fun _ => rfl⟩

/-- C5 witness: on `opSample`, whose machine accessors succeed with empty
collections, population succeeds and the snapshots are those (empty)
collections. -/
theorem Populate_mirrors_accessor_witness :
    opSample.PopulateExistingDevices.2.ExistingDevices.1 = ([] : List LinkLayerDevice) ∧
    opSample.PopulateExistingAddresses.2.ExistingAddresses.1 = ([] : List LinkLayerAddress) :=
  ⟨(Populate_mirrors_accessor opSample).2.1 rfl, (Populate_mirrors_accessor opSample).2.2.2 rfl⟩

/-- C6: a freshly constructed operation carries no state from any earlier
pass: both processed sets are empty, `IsDevProcessed` is false for every
incoming interface, the device and address snapshots are empty until
populated, and `Incoming` returns exactly the collection supplied at
construction. -/
theorem NewOp_carries_no_state (machine : LinkLayerMachine) (incoming : List InterfaceInfo)
    (itf : InterfaceInfo) :
    (NewMachineLinkLayerOp machine incoming).processedDevs.values = ∅ ∧
    (NewMachineLinkLayerOp machine incoming).processedAddrs.values = ∅ ∧
    ((NewMachineLinkLayerOp machine incoming).IsDevProcessed itf).1 = false ∧
    (NewMachineLinkLayerOp machine incoming).existingDevs = [] ∧
    (NewMachineLinkLayerOp machine incoming).existingAddrs = [] ∧
    (NewMachineLinkLayerOp machine incoming).Incoming.1 = incoming := by
  refine ⟨rfl, rfl, ?_, rfl, rfl, rfl⟩
  simp [NewMachineLinkLayerOp, MachineLinkLayerOp.IsDevProcessed, SetStrings.Contains,
    SetStrings.NewStrings]

/-- C7: `Done` returns its input outcome unchanged for every input, nil and
non-nil alike, and leaves the operation state untouched. -/
theorem Done_identity (o : MachineLinkLayerOp) (err : Option String) :
    o.Done err = (err, o) ∧ o.Done none = (none, o) :=
  ⟨rfl, rfl⟩

/-- C8: `DeviceAddresses` returns exactly the snapshot addresses whose owning
device name equals the input device's name, compared as exact strings: the
result is an order-preserving sublist of the snapshot, every member's device
name equals the device's name, every matching snapshot address is kept with
its multiplicity, and an address with a different device name is never
included. -/
theorem DeviceAddresses_filter_characterization (o : MachineLinkLayerOp)
    (dev : LinkLayerDevice) :
    (o.DeviceAddresses dev).1.Sublist o.existingAddrs ∧
    (∀ a ∈ (o.DeviceAddresses dev).1, a.deviceName = dev.name) ∧
    (∀ a ∈ o.existingAddrs, a.deviceName = dev.name → a ∈ (o.DeviceAddresses dev).1) ∧
    (∀ a, (o.DeviceAddresses dev).1.count a =
      if a.deviceName = dev.name then o.existingAddrs.count a else 0) := by
  refine ⟨List.filter_sublist o.existingAddrs, ?_, ?_, ?_⟩
  · intro a ha
    have := (List.mem_filter.mp ha).2
    simpa using this
  · intro a ha hname
    exact List.mem_filter.mpr ⟨ha, by simpa using hname⟩
  · intro a
    by_cases hname : a.deviceName = dev.name
    · rw [if_pos hname]
      exact List.count_filter (by simpa using hname)
    · rw [if_neg hname]
      refine List.count_eq_zero.mpr ?_
      intro hmem
      exact hname (by simpa using (List.mem_filter.mp hmem).2)

/-- C8 witness: on the concrete snapshot of `opWithAddrs`, the address owned
by device name eth0 is returned for `devSample` (named eth0). -/
theorem DeviceAddresses_filter_characterization_witness :
    addrSample ∈ (opWithAddrs.DeviceAddresses devSample).1 :=
  (DeviceAddresses_filter_characterization opWithAddrs devSample).2.2.1 addrSample
    (by decide) (by decide)

/-- C9: every query operation is read-only: `MatchingIncoming`,
`MatchingIncomingAddrs`, `DeviceAddresses`, `IsDevProcessed`, `Incoming`,
`ExistingDevices` and `ExistingAddresses` all return the operation state
unchanged, so the incoming collection, both processed sets and both
snapshots are untouched. -/
theorem Queries_readonly (o : MachineLinkLayerOp) (dev : LinkLayerDevice)
    (itf : InterfaceInfo) :
    (o.MatchingIncoming dev).2 = o ∧
    (o.MatchingIncomingAddrs dev).2 = o ∧
    (o.DeviceAddresses dev).2 = o ∧
    (o.IsDevProcessed itf).2 = o ∧
    o.Incoming.2 = o ∧
    o.ExistingDevices.2 = o ∧
    o.ExistingAddresses.2 = o :=
  ⟨rfl, rfl, rfl, rfl, rfl, rfl, rfl⟩

/-- One marking call of the build step: a device mark or an address mark. -/
inductive Mark where
  | dev (d : LinkLayerDevice)
  | addr (ip : String)
deriving DecidableEq

/-- Executes one marking call on the operation state. -/
def applyMark (o : MachineLinkLayerOp) : Mark → MachineLinkLayerOp
  | Mark.dev d => o.MarkDevProcessed d
  | Mark.addr ip => o.MarkAddrProcessed ip

/-- Executes a sequence of marking calls, left to right. -/
def applyMarks : MachineLinkLayerOp → List Mark → MachineLinkLayerOp
  | o, [] => o
  | o, m :: t => applyMarks (applyMark o m) t

/-- Any two marking calls commute. -/
theorem applyMark_comm (o : MachineLinkLayerOp) (m1 m2 : Mark) :
    applyMark (applyMark o m1) m2 = applyMark (applyMark o m2) m1 := by
  cases m1 <;> cases m2 <;>
    simp [applyMark, MachineLinkLayerOp.MarkDevProcessed,
      MachineLinkLayerOp.MarkAddrProcessed, SetStrings.Add, Finset.Insert.comm]

/-- Permuted mark sequences produce the same operation state. -/
theorem applyMarks_perm_eq {l1 l2 : List Mark} (h : l1.Perm l2) :
    ∀ o : MachineLinkLayerOp, applyMarks o l1 = applyMarks o l2 := by
  induction h with
  | nil => intro o; rfl
  | cons m _ ih => intro o; exact ih (applyMark o m)
  | swap m1 m2 t => intro o; simp only [applyMarks]; rw [applyMark_comm]
  | trans _ _ ih1 ih2 => intro o; exact (ih1 o).trans (ih2 o)

/-- C10: marking is idempotent and order-insensitive: calling
`MarkDevProcessed` twice on the same device equals calling it once, and
interleaving the marks for two devices and two addresses in any order yields
the same final processed state. -/
theorem Marking_idempotent_orderInsensitive (o : MachineLinkLayerOp)
    (d1 d2 : LinkLayerDevice) (a1 a2 : String) :
    ((o.MarkDevProcessed d1).MarkDevProcessed d1 = o.MarkDevProcessed d1) ∧
    (∀ l : List Mark,
      l.Perm [Mark.dev d1, Mark.dev d2, Mark.addr a1, Mark.addr a2] →
      applyMarks o l = applyMarks o [Mark.dev d1, Mark.dev d2, Mark.addr a1, Mark.addr a2]) := by
  constructor
  · simp [MachineLinkLayerOp.MarkDevProcessed, SetStrings.Add, Finset.insert_idem]
  · intro l h
    exact applyMarks_perm_eq h o

/-- C10 witness: a concrete reordering of four marks yields the same state as
the canonical order. -/
theorem Marking_idempotent_orderInsensitive_witness :
    applyMarks opSample
        [Mark.addr "10.0.0.6", Mark.dev devOther, Mark.addr "10.0.0.5", Mark.dev devSample] =
      applyMarks opSample
        [Mark.dev devSample, Mark.dev devOther, Mark.addr "10.0.0.5", Mark.addr "10.0.0.6"] :=
  (Marking_idempotent_orderInsensitive opSample devSample devOther "10.0.0.5" "10.0.0.6").2
    [Mark.addr "10.0.0.6", Mark.dev devOther, Mark.addr "10.0.0.5", Mark.dev devSample]
    (by decide)
